import Mathlib

/-!
Verification of the `sui-test-validator` binary
(`crates/sui-test-validator/src/main.rs`): a shallow embedding of its
argument parsing, genesis bootstrap branch, cluster startup call, and the
two-route faucet HTTP front-end, together with theorems settling the
specification's testable properties.

External collaborators (the faucet client, the genesis generator, the
cluster launcher, the keystore) are modelled as parameters of the
embedding: their results are inputs, so every theorem quantifies over all
possible collaborator behaviours.
-/

namespace SuiTestValidator

/-- Sui addresses are opaque identifiers at this layer; the handler never
inspects them, so we model them as strings. -/
abbrev SuiAddress := String

/-- Errors from external collaborators are opaque at this layer. -/
abbrev Err := String

/-- Modelled from the spec: one transferred-object record of the faucet
response ("a list of transferred-object records out"); the handler never
inspects the records, only whether the list is empty. The concrete type
(`CoinInfo` of the `sui-faucet` crate) is outside the supplied source. -/
structure CoinInfo where
  id : Nat
  amount : Nat
deriving DecidableEq

/-- Modelled from the spec: the faucet client's response type
(`FaucetResponse` of the `sui-faucet` crate, outside the supplied source);
the handler reads only its `transferred_gas_objects` list. -/
structure FaucetResponse where
  transferred_gas_objects : List CoinInfo
deriving DecidableEq

/-- Modelled from the spec: the fixed-amount request variant payload
(`FixedAmountRequest` of the `sui-faucet` crate): a recipient field. -/
structure FixedAmountRequest where
  recipient : SuiAddress
deriving DecidableEq

/-- Modelled from the spec: the request union (`FaucetRequest` of the
`sui-faucet` crate), "currently one variant: fixed-amount request with a
recipient field"; the handler's `match` in the source has exactly this one
arm. -/
inductive FaucetRequest where
  | FixedAmountRequest (req : FixedAmountRequest)
deriving DecidableEq

/-- The recipient named by a request (the payload of its single variant). -/
def FaucetRequest.recipient : FaucetRequest → SuiAddress
  | FaucetRequest.FixedAmountRequest req => req.recipient

/-- HTTP status codes, as in the `http` crate: a numeric code. -/
structure StatusCode where
  code : Nat
deriving DecidableEq

def StatusCode.OK : StatusCode := ⟨200⟩

def StatusCode.CREATED : StatusCode := ⟨201⟩

def StatusCode.INTERNAL_SERVER_ERROR : StatusCode := ⟨500⟩

/-- HTTP methods used by this unit. -/
inductive HttpMethod where
  | GET
  | POST
deriving DecidableEq

/-- The faucet client collaborator: `request_sui_coins` maps a recipient to
a response. Quantifying over this function quantifies over all possible
client behaviours. -/
abbrev FaucetClient := SuiAddress → FaucetResponse

/-- Result of one run of the `faucet_request` handler: the HTTP status, the
JSON-serialized body (the client result, unserialized in the model), and
the list of recipients passed to `request_sui_coins`, in call order. -/
structure HandlerResult where
  status : StatusCode
  body : FaucetResponse
  calls : List SuiAddress
deriving DecidableEq

/-- Embedding of `faucet_request` (main.rs lines 182-197): match the payload
to extract the recipient, delegate to the client, then return 201 with the
result if any gas object was transferred, else 500 with the result. -/
def faucet_request (client : FaucetClient) (payload : FaucetRequest) : HandlerResult :=
  match payload with
  | FaucetRequest.FixedAmountRequest req =>
      let result := client req.recipient
      if !result.transferred_gas_objects.isEmpty then
        { status := StatusCode.CREATED, body := result, calls := [req.recipient] }
      else
        { status := StatusCode.INTERNAL_SERVER_ERROR, body := result, calls := [req.recipient] }

/-- Embedding of `health` (main.rs lines 177-180): a constant string. -/
def health : String := "OK"

/-- Axum's `IntoResponse` for a static string: status 200 with the string
as body. -/
def str_into_response (s : String) : StatusCode × String := (StatusCode.OK, s)

/-- An axum router: an ordered list of (path, method) routes. -/
structure Router where
  routes : List (String × HttpMethod)
deriving DecidableEq

def Router.new : Router := ⟨[]⟩

def Router.route (r : Router) (path : String) (m : HttpMethod) : Router :=
  ⟨r.routes ++ [(path, m)]⟩

/-- Embedding of the router built in `start_faucet` (main.rs lines 156-158):
`GET /` to `health`, `POST /gas` to `faucet_request`. -/
def app : Router :=
  (Router.new.route "/" HttpMethod.GET).route "/gas" HttpMethod.POST

/-- A CORS layer configuration, as built by the `tower_http` builder:
allowed methods, and whether headers and origin are `Any`. -/
structure CorsLayer where
  allow_methods_list : List HttpMethod
  allow_headers_any : Bool
  allow_origin_any : Bool
deriving DecidableEq

def CorsLayer.new : CorsLayer :=
  { allow_methods_list := [], allow_headers_any := false, allow_origin_any := false }

def CorsLayer.allow_methods (c : CorsLayer) (ms : List HttpMethod) : CorsLayer :=
  { c with allow_methods_list := ms }

def CorsLayer.allow_headers_Any (c : CorsLayer) : CorsLayer :=
  { c with allow_headers_any := true }

def CorsLayer.allow_origin_Any (c : CorsLayer) : CorsLayer :=
  { c with allow_origin_any := true }

/-- Embedding of the CORS layer built in `start_faucet` (main.rs lines
151-154). -/
def faucet_cors : CorsLayer :=
  ((CorsLayer.new.allow_methods [HttpMethod.GET, HttpMethod.POST]).allow_headers_Any).allow_origin_Any

/-- A socket address: an IPv4 quad plus a port. -/
structure SocketAddr where
  ip : Nat × Nat × Nat × Nat
  port : Nat
deriving DecidableEq

/-- Embedding of the bind address of `start_faucet` (main.rs line 166):
`SocketAddr::from(([127, 0, 0, 1], port))`. -/
def start_faucet_bind_addr (port : Nat) : SocketAddr :=
  { ip := (127, 0, 0, 1), port := port }

/-- Embedding of the `Args` record (main.rs lines 27-66). -/
structure Args where
  fullnode_rpc_port : Nat
  faucet_port : Nat
  indexer_rpc_port : Nat
  pg_port : Nat
  pg_host : String
  epoch_duration_ms : Nat
  with_indexer : Bool
  use_indexer_experimental_methods : Bool
  with_persisted : Bool
deriving DecidableEq

/-- A command line: for each valued flag, `none` when omitted; each boolean
flag is `true` exactly when present (clap `takes_value = false` flags). -/
structure CliInput where
  fullnode_rpc_port : Option Nat := none
  faucet_port : Option Nat := none
  indexer_rpc_port : Option Nat := none
  pg_port : Option Nat := none
  pg_host : Option String := none
  epoch_duration_ms : Option Nat := none
  with_indexer : Bool := false
  use_indexer_experimental_methods : Bool := false
  with_persisted : Bool := false

/-- Embedding of clap parsing of `Args`: each omitted valued flag takes the
`default_value` declared on its field (main.rs lines 31, 35, 39, 44, 48,
52); boolean flags default to absent. -/
def Args.parse_from (c : CliInput) : Args :=
  { fullnode_rpc_port := c.fullnode_rpc_port.getD 9000
    faucet_port := c.faucet_port.getD 9123
    indexer_rpc_port := c.indexer_rpc_port.getD 9124
    pg_port := c.pg_port.getD 5432
    pg_host := c.pg_host.getD "localhost"
    epoch_duration_ms := c.epoch_duration_ms.getD 60000
    with_indexer := c.with_indexer
    use_indexer_experimental_methods := c.use_indexer_experimental_methods
    with_persisted := c.with_persisted }

/-- Modelled from the spec: the cluster environment enum (`Env` of
`sui_cluster_test::config`); this unit only ever uses the `NewLocal`
variant, so only it is modelled. -/
inductive ClusterEnv where
  | NewLocal
deriving DecidableEq

/-- Modelled from the spec: the cluster launch options record
(`ClusterTestOpt` of `sui_cluster_test::config`); its fields are exactly
those the source populates at main.rs lines 113-123. -/
structure ClusterTestOpt where
  env : ClusterEnv
  fullnode_address : Option String
  indexer_address : Option String
  pg_address : Option String
  faucet_address : Option String
  epoch_duration_ms : Option Nat
  use_indexer_experimental_methods : Bool
deriving DecidableEq

/-- Modelled from the spec: the genesis configuration
(`GenesisConfig::for_local_testing_with_addresses`, outside the supplied
source); this unit only builds it from the keystore's existing addresses
and passes it along opaquely. -/
structure GenesisConfig where
  addresses : List SuiAddress
deriving DecidableEq

def GenesisConfig.for_local_testing_with_addresses (addrs : List SuiAddress) : GenesisConfig :=
  { addresses := addrs }

/-- Modelled from the spec: the running cluster handle (`LocalNewCluster`),
of which this unit reads only the fullnode and optional indexer URLs. -/
structure Cluster where
  fullnode_url : String
  indexer_url : Option String
deriving DecidableEq

/-- The observable steps of `main`, in the order they are recorded. -/
inductive Event where
  | argsParsed (a : Args)
  | genesisInvoked
  | keystoreRead
  | clusterStarted (opt : ClusterTestOpt) (cfg : Option GenesisConfig)
  | faucetServed (port : Nat)
deriving DecidableEq

def Event.isGenesis : Event → Bool
  | Event.genesisInvoked => true
  | _ => false

def Event.isCluster : Event → Bool
  | Event.clusterStarted _ _ => true
  | _ => false

/-- The position of each step in the source's fixed control flow; used to
state that recorded events occur in strictly this order. -/
def Event.rank : Event → Nat
  | Event.argsParsed _ => 0
  | Event.genesisInvoked => 1
  | Event.keystoreRead => 2
  | Event.clusterStarted _ _ => 3
  | Event.faucetServed _ => 4

instance instDecEqExcept {ε α : Type} [DecidableEq ε] [DecidableEq α] :
    DecidableEq (Except ε α) := fun
  | Except.error e, Except.error f =>
      if h : e = f then isTrue (congrArg Except.error h)
      else isFalse (fun hc => h (Except.error.inj hc))
  | Except.error _, Except.ok _ => isFalse (fun hc => Except.noConfusion hc)
  | Except.ok _, Except.error _ => isFalse (fun hc => Except.noConfusion hc)
  | Except.ok x, Except.ok y =>
      if h : x = y then isTrue (congrArg Except.ok h)
      else isFalse (fun hc => h (Except.ok.inj hc))

/-- The environment `main` runs against: the filesystem check and the
results of each external collaborator call. Quantifying over a `World`
quantifies over all collaborator behaviours, success or failure.
`sui_cluster_test_config_dir` is modelled from the spec as an infallible
config-directory lookup ("reads or creates a local keystore and network
config directory"); its concrete path does not influence this unit. -/
structure World where
  network_config_exists : Bool
  genesis_result : Except Err Unit
  keystore_addresses : Except Err (List SuiAddress)
  cluster_result : Except Err Cluster
  serve_result : Except Err Unit
deriving DecidableEq

/-- Embedding of the `ClusterTestOpt` literal passed to
`LocalNewCluster::start` (main.rs lines 113-123); `b.then_some x` is
`if b then some x else none`. -/
def buildClusterTestOpt (a : Args) : ClusterTestOpt :=
  { env := ClusterEnv.NewLocal
    fullnode_address := some ("127.0.0.1:" ++ toString a.fullnode_rpc_port)
    indexer_address :=
      if a.with_indexer then some ("127.0.0.1:" ++ toString a.indexer_rpc_port) else none
    pg_address :=
      if a.with_indexer then
        some ("postgres://postgres@" ++ a.pg_host ++ ":" ++ toString a.pg_port ++ "/sui_indexer")
      else none
    faucet_address := none
    epoch_duration_ms := some a.epoch_duration_ms
    use_indexer_experimental_methods := a.use_indexer_experimental_methods }

/-- Tail of `main` from the `LocalNewCluster::start` call on (main.rs lines
112-139): start the cluster (propagating failure), then run `start_faucet`,
whose `serve` blocks and whose result `main` propagates before `Ok(())`. -/
def run_from_cluster (a : Args) (w : World) (tr : List Event) (cfg : Option GenesisConfig) :
    List Event × Except Err Unit :=
  let tr := tr ++ [Event.clusterStarted (buildClusterTestOpt a) cfg]
  match w.cluster_result with
  | Except.error e => (tr, Except.error e)
  | Except.ok _cluster =>
      let tr := tr ++ [Event.faucetServed a.faucet_port]
      match w.serve_result with
      | Except.error e => (tr, Except.error e)
      | Except.ok _ => (tr, Except.ok ())

/-- Keystore read of the persisted branch (main.rs lines 102-107): read the
existing addresses (propagating failure) and build the genesis config from
them, then continue with the cluster start. -/
def run_keystore_phase (a : Args) (w : World) (tr : List Event) :
    List Event × Except Err Unit :=
  let tr := tr ++ [Event.keystoreRead]
  match w.keystore_addresses with
  | Except.error e => (tr, Except.error e)
  | Except.ok addrs =>
      run_from_cluster a w tr (some (GenesisConfig.for_local_testing_with_addresses addrs))

/-- Embedding of `main` (main.rs lines 68-140) as a trace of events plus the
propagated result: parse arguments; if `with_persisted`, invoke `genesis`
when the network config file does not exist (propagating failure) and read
the keystore; then start the cluster and the faucet server. -/
def main_run (a : Args) (w : World) : List Event × Except Err Unit :=
  let tr := [Event.argsParsed a]
  if a.with_persisted then
    if !w.network_config_exists then
      let tr := tr ++ [Event.genesisInvoked]
      match w.genesis_result with
      | Except.error e => (tr, Except.error e)
      | Except.ok _ => run_keystore_phase a w tr
    else
      run_keystore_phase a w tr
  else
    run_from_cluster a w tr none

/-- Whether every pre-serve phase of `main` succeeds in world `w` under
arguments `a`: the genesis call when invoked, the keystore read when on the
persisted branch, and the cluster start. -/
def startupOk (a : Args) (w : World) : Bool :=
  (if a.with_persisted then
    (if !w.network_config_exists then w.genesis_result.toBool else true)
      && w.keystore_addresses.toBool
   else true)
    && w.cluster_result.toBool

/-- The command line with every flag omitted. -/
def cliAllOmitted : CliInput := {}

/-- The `Args` record parsed from an empty command line. -/
def argsOmitted : Args := Args.parse_from cliAllOmitted

/-- A world in which every collaborator call succeeds and the persisted
network config is absent. -/
def worldAllOk : World :=
  { network_config_exists := false
    genesis_result := Except.ok ()
    keystore_addresses := Except.ok []
    cluster_result := Except.ok { fullnode_url := "", indexer_url := none }
    serve_result := Except.ok () }

/-- Arguments with the `--with-persisted` flag set and everything else
omitted. -/
def argsPersisted : Args := Args.parse_from { with_persisted := true }

/-- A world in which the network config is absent and the genesis call
fails. -/
def worldGenesisFail : World :=
  { worldAllOk with genesis_result := Except.error "genesis failed" }

/-- C1: for every client behaviour and every request, the status returned
by `faucet_request` is a pure function of whether the transferred-gas
-objects list of the result is empty: 500 when empty, 201 otherwise. -/
theorem faucet_request_status_pure (client : FaucetClient) (payload : FaucetRequest) :
    (faucet_request client payload).status =
      if (faucet_request client payload).body.transferred_gas_objects.isEmpty then
        StatusCode.INTERNAL_SERVER_ERROR
      else
        StatusCode.CREATED := by
  cases payload with
  | FixedAmountRequest req =>
      by_cases h : (client req.recipient).transferred_gas_objects.isEmpty <;>
        simp [faucet_request, h]

/-- C2: the liveness handler is mounted at `GET /`, takes no input
(`health` is a constant), and always responds 200 with the fixed body
"OK"; there is no failure branch. -/
theorem health_always_ok :
    ("/", HttpMethod.GET) ∈ app.routes ∧
    health = "OK" ∧
    str_into_response health = (StatusCode.OK, "OK") := by
  refine ⟨?_, rfl, rfl⟩
  simp [app, Router.new, Router.route]

/-- C3: parsing an empty command line yields the documented defaults:
fullnode RPC port 9000, faucet port 9123, indexer RPC port 9124, postgres
port 5432 on host "localhost", epoch duration 60000 ms, and all three
boolean flags false. -/
theorem args_defaults :
    Args.parse_from cliAllOmitted =
      { fullnode_rpc_port := 9000
        faucet_port := 9123
        indexer_rpc_port := 9124
        pg_port := 5432
        pg_host := "localhost"
        epoch_duration_ms := 60000
        with_indexer := false
        use_indexer_experimental_methods := false
        with_persisted := false } := by
  rfl

/-- C4: in every world, the genesis bootstrap is recorded exactly once when
`with_persisted` is set and the network config file does not exist, and
never otherwise; and no genesis event occurs at or after the cluster-start
event. -/
theorem genesis_once_before_cluster (a : Args) (w : World) :
    ((main_run a w).1.countP Event.isGenesis =
      if a.with_persisted && !w.network_config_exists then 1 else 0) ∧
    (((main_run a w).1.dropWhile fun e => !e.isCluster).all (fun e => !e.isGenesis)) = true := by
  cases hp : a.with_persisted <;> cases hn : w.network_config_exists <;>
    cases hg : w.genesis_result <;> cases hk : w.keystore_addresses <;>
      cases hc : w.cluster_result <;> cases hs : w.serve_result <;>
        simp [main_run, run_keystore_phase, run_from_cluster, hp, hn, hg, hk, hc, hs,
          Event.isGenesis, Event.isCluster, List.dropWhile]

/-- C5: in every world, the recorded steps of `main` occur in the fixed
order argument parsing, optional genesis, optional keystore read, cluster
start, faucet serving, each at most once (ranks strictly increase along
the trace, so there are no loops or retries); the trace starts with
argument parsing; and `main` returns `Ok` exactly when the faucet server
was reached and its `serve` future completed successfully. -/
theorem main_fixed_order (a : Args) (w : World) :
    List.Chain' (fun x y => Event.rank x < Event.rank y) (main_run a w).1 ∧
    (main_run a w).1.head? = some (Event.argsParsed a) ∧
    ((main_run a w).2 = Except.ok () ↔
      Event.faucetServed a.faucet_port ∈ (main_run a w).1 ∧
        w.serve_result = Except.ok ()) := by
  cases hp : a.with_persisted <;> cases hn : w.network_config_exists <;>
    cases hg : w.genesis_result <;> cases hk : w.keystore_addresses <;>
      cases hc : w.cluster_result <;> cases hs : w.serve_result <;>
        simp [main_run, run_keystore_phase, run_from_cluster, hp, hn, hg, hk, hc, hs,
          Event.rank, List.chain'_cons]

/-- C6: any startup failure (genesis, keystore read, or cluster start) or
serve failure makes `main` return an error rather than handling it, and a
startup failure prevents the faucet-serving step from ever being reached. -/
theorem startup_failure_fatal (a : Args) (w : World)
    (h : startupOk a w = false ∨ w.serve_result.toBool = false) :
    (∃ e, (main_run a w).2 = Except.error e) ∧
    (startupOk a w = false → ¬ Event.faucetServed a.faucet_port ∈ (main_run a w).1) := by
  cases hp : a.with_persisted <;> cases hn : w.network_config_exists <;>
    cases hg : w.genesis_result <;> cases hk : w.keystore_addresses <;>
      cases hc : w.cluster_result <;> cases hs : w.serve_result <;>
        simp_all [main_run, run_keystore_phase, run_from_cluster, startupOk, Except.toBool]

/-- Witness for C6: with `--with-persisted`, no persisted network config,
and a failing genesis call, `main` returns an error and the faucet-serving
step is never reached. -/
theorem startup_failure_fatal_witness :
    (∃ e, (main_run argsPersisted worldGenesisFail).2 = Except.error e) ∧
    (startupOk argsPersisted worldGenesisFail = false →
      ¬ Event.faucetServed argsPersisted.faucet_port ∈
          (main_run argsPersisted worldGenesisFail).1) :=
  startup_failure_fatal argsPersisted worldGenesisFail (Or.inl rfl)

/-- C7: on `POST /gas`, both the 201 branch and the 500 branch serialize
the very faucet-client result the handler received, unchanged: the
response body is always the client's response for the request's
recipient. -/
theorem faucet_request_body_unchanged (client : FaucetClient) (payload : FaucetRequest) :
    (faucet_request client payload).body = client payload.recipient := by
  cases payload with
  | FixedAmountRequest req =>
      by_cases h : (client req.recipient).transferred_gas_objects.isEmpty <;>
        simp [faucet_request, FaucetRequest.recipient, h]

/-- C8: for every well-formed `POST /gas` payload, the handler calls
`request_sui_coins` exactly once, with exactly the recipient named by the
payload, and performs no other call (no validation, retry, or idempotency
logic of its own). -/
theorem faucet_request_delegates (client : FaucetClient) (payload : FaucetRequest) :
    (faucet_request client payload).calls = [payload.recipient] := by
  cases payload with
  | FixedAmountRequest req =>
      by_cases h : (client req.recipient).transferred_gas_objects.isEmpty <;>
        simp [faucet_request, FaucetRequest.recipient, h]

/-- C9: in every world, whatever options record is passed to
`LocalNewCluster::start` has `env = NewLocal`, the fullnode address
`127.0.0.1:<fullnode_rpc_port>`, no faucet address, the epoch duration
from the flags, and indexer/postgres addresses that are `some` exactly
when `with_indexer` is set (the postgres address then being
`postgres://postgres@<pg_host>:<pg_port>/sui_indexer`). -/
theorem cluster_start_opt (a : Args) (w : World) (opt : ClusterTestOpt)
    (cfg : Option GenesisConfig)
    (h : Event.clusterStarted opt cfg ∈ (main_run a w).1) :
    opt.env = ClusterEnv.NewLocal ∧
    opt.fullnode_address = some ("127.0.0.1:" ++ toString a.fullnode_rpc_port) ∧
    opt.faucet_address = none ∧
    opt.epoch_duration_ms = some a.epoch_duration_ms ∧
    opt.indexer_address =
      (if a.with_indexer then some ("127.0.0.1:" ++ toString a.indexer_rpc_port) else none) ∧
    opt.pg_address =
      (if a.with_indexer then
        some ("postgres://postgres@" ++ a.pg_host ++ ":" ++ toString a.pg_port ++ "/sui_indexer")
       else none) ∧
    opt.indexer_address.isSome = a.with_indexer ∧
    opt.pg_address.isSome = a.with_indexer := by
  have hopt : opt = buildClusterTestOpt a := by
    cases hp : a.with_persisted <;> cases hn : w.network_config_exists <;>
      cases hg : w.genesis_result <;> cases hk : w.keystore_addresses <;>
        cases hc : w.cluster_result <;> cases hs : w.serve_result <;>
          simp [main_run, run_keystore_phase, run_from_cluster, hp, hn, hg, hk, hc, hs] at h <;>
            tauto
  subst hopt
  by_cases hwi : a.with_indexer <;> simp [buildClusterTestOpt, hwi]

/-- Witness for C9: with all flags omitted and every collaborator
succeeding, the options record passed to the cluster launcher has the
stated fields. -/
theorem cluster_start_opt_witness :
    (buildClusterTestOpt argsOmitted).env = ClusterEnv.NewLocal ∧
    (buildClusterTestOpt argsOmitted).fullnode_address =
      some ("127.0.0.1:" ++ toString argsOmitted.fullnode_rpc_port) ∧
    (buildClusterTestOpt argsOmitted).faucet_address = none ∧
    (buildClusterTestOpt argsOmitted).epoch_duration_ms = some argsOmitted.epoch_duration_ms ∧
    (buildClusterTestOpt argsOmitted).indexer_address =
      (if argsOmitted.with_indexer then
        some ("127.0.0.1:" ++ toString argsOmitted.indexer_rpc_port)
       else none) ∧
    (buildClusterTestOpt argsOmitted).pg_address =
      (if argsOmitted.with_indexer then
        some ("postgres://postgres@" ++ argsOmitted.pg_host ++ ":" ++
          toString argsOmitted.pg_port ++ "/sui_indexer")
       else none) ∧
    (buildClusterTestOpt argsOmitted).indexer_address.isSome = argsOmitted.with_indexer ∧
    (buildClusterTestOpt argsOmitted).pg_address.isSome = argsOmitted.with_indexer :=
  cluster_start_opt argsOmitted worldAllOk (buildClusterTestOpt argsOmitted) none
    (by simp [main_run, run_from_cluster, argsOmitted, cliAllOmitted, Args.parse_from,
      worldAllOk])

/-- C10: for every port (and hence regardless of CLI flags), the faucet
server binds to the loopback address 127.0.0.1 with only the port
configurable, and its CORS layer allows the GET and POST methods with any
headers and any origin. -/
theorem faucet_bind_loopback_and_cors (port : Nat) :
    (start_faucet_bind_addr port).ip = (127, 0, 0, 1) ∧
    (start_faucet_bind_addr port).port = port ∧
    faucet_cors.allow_methods_list = [HttpMethod.GET, HttpMethod.POST] ∧
    faucet_cors.allow_headers_any = true ∧
    faucet_cors.allow_origin_any = true :=
  ⟨rfl, rfl, rfl, rfl, rfl⟩

end SuiTestValidator
